import Mathlib

/-!
Shallow embedding of the video-job orchestrator in `server.py` (bgbye).

The embedding models, faithfully to the source:
  * `process_video` — the orchestrator coroutine, including Python's
    try/except/finally semantics.  The `finally` block of the source reads
    the local variable `frames_dir`, which is assigned only after the
    frame-count gate; on the early-return paths that local is unbound and
    the `finally` block itself raises `UnboundLocalError`, which is not
    caught (the `except` clause guards only the `try` body) and therefore
    propagates out of the coroutine.  The embedding tracks whether the
    local was assigned (`framesDirDefined`) and reproduces this behaviour.
  * `process_frame` — per-frame dispatch on the method name; an unknown
    method raises `ValueError("Invalid method")`.
  * `remove_background_video` — the admission endpoint.  It saves the
    upload, schedules the background task and returns `{"video_id": id}`;
    it never writes to the `processing_status` registry.
  * `get_status` — the status endpoint over the registry record.
  * `cleanup_old_videos` — one sweep of the retention janitor;
    `os.path.getmtime` on an item that has disappeared since enumeration
    raises `FileNotFoundError`, which nothing catches.

External effects (subprocess exit codes and outputs, frames written by
ffmpeg, outcomes of the segmentation backend on each frame) are inputs in
an environment record `Env`.  The filesystem facts the claims speak about
(the job's frame directory, input file and output artifact) are a small
state record `FS`; the CUDA placement of the shared inspyrenet model is a
two-state `Device`.  Python float progress values are modelled as exact
rationals; registry writes are recorded in order in `hist`, the current
record being the last write.  The model is sequential: the races the
claims mention enter through `Env` (for the janitor, through the possible
absence of an enumerated item at inspection time).
-/

/-- A value of the `processing_status` registry: the Python dict literally
written by the server, with `none` for keys the dict does not carry. -/
structure JobRecord where
  status : String
  progress : Option ℚ
  message : Option String
  output_path : Option String
deriving Repr, DecidableEq

/-- The on-disk facts about one job that the claims mention. -/
structure FS where
  /-- does `temp_videos/frames/<id>` exist -/
  framesDirExists : Bool
  /-- names of the files inside the job's frame directory -/
  frameFiles : List String
  /-- does `temp_videos/output_<id>.webm` exist -/
  outputExists : Bool
  /-- does `temp_videos/input_<id>.mp4` exist -/
  inputExists : Bool
deriving Repr, DecidableEq

/-- Placement of the shared inspyrenet model. -/
inductive Device where
  | cpu
  | cuda
deriving Repr, DecidableEq

/-- Outcomes of the external effects one run of `process_video` performs. -/
structure Env where
  /-- returncode of the ffprobe frame-count subprocess -/
  probeExit : Nat
  /-- decoded stdout of the probe -/
  probeOut : String
  /-- returncode of the ffmpeg frame-extraction subprocess -/
  extractExit : Nat
  /-- file names ffmpeg writes into the frame directory -/
  extractedFrames : List String
  /-- outcome of the segmentation backend on frame `i` (for a supported
      method); `error msg` models an exception with description `msg` -/
  frameResult : Nat → Except String Unit
  /-- returncode of the ffmpeg encoding subprocess -/
  encodeExit : Nat

/-- `int()` digit run: all characters must be decimal digits. -/
def parseNatDigits : List Char → Nat → Option Nat
  | [], acc => some acc
  | c :: rest, acc =>
      if c.isDigit then parseNatDigits rest (acc * 10 + (c.toNat - 48)) else none

/-- Python `int(s)` on an already stripped string: optional sign followed by
a nonempty run of decimal digits; anything else raises `ValueError`. -/
def pyInt (s : String) : Option Int :=
  match s.data with
  | [] => none
  | '+' :: rest =>
      if rest.isEmpty then none else (parseNatDigits rest 0).map (fun n => (n : Int))
  | '-' :: rest =>
      if rest.isEmpty then none else (parseNatDigits rest 0).map (fun n => -(n : Int))
  | cs => (parseNatDigits cs 0).map (fun n => (n : Int))

/-- Python `str.strip()` on the character list: drop whitespace from both
ends. -/
def stripChars (cs : List Char) : List Char :=
  ((cs.dropWhile Char.isWhitespace).reverse.dropWhile Char.isWhitespace).reverse

/-- Python `s.strip()`. -/
def pyStrip (s : String) : String := String.mk (stripChars s.data)

/-- Python `name.endswith(".png")`. -/
def endsWithPng (s : String) : Bool := ".png".data.isSuffixOf s.data

/-- Lexicographic order on code points — Python's string order. -/
def lexLe : List Char → List Char → Bool
  | [], _ => true
  | _ :: _, [] => false
  | a :: as, b :: bs =>
      if a.toNat < b.toNat then true
      else if b.toNat < a.toNat then false
      else lexLe as bs

/-- `s <= t` on strings, by code points. -/
def strLe (s t : String) : Bool := lexLe s.data t.data

/-- Insertion step of `sorted(...)` on strings. -/
def insertStr (s : String) : List String → List String
  | [] => [s]
  | t :: ts => if strLe s t then s :: t :: ts else t :: insertStr s ts

/-- Python `sorted(...)` on the list of frame file names. -/
def sortStr : List String → List String
  | [] => []
  | s :: ss => insertStr s (sortStr ss)

/-- The rembg model names accepted by the dispatch. -/
def rembgMethods : List String :=
  ["u2net", "u2net_human_seg", "isnet-general-use", "isnet-anime"]

/-- The method names `process_frame` dispatches on without raising. -/
def supportedMethod (method : String) : Prop :=
  method = "bria" ∨ method = "inspyrenet" ∨ method ∈ rembgMethods

instance (method : String) : Decidable (supportedMethod method) := by
  unfold supportedMethod; infer_instance

/-- `process_frame(frame_path, method)`: dispatch to the backend or raise
`ValueError("Invalid method")`.  The backend call's outcome on frame `i`
is `env.frameResult i`. -/
def process_frame (env : Env) (method : String) (i : Nat) : Except String Unit :=
  if method = "bria" then env.frameResult i
  else if method = "inspyrenet" then env.frameResult i
  else if method ∈ rembgMethods then env.frameResult i
  else Except.error "Invalid method"

/-- The registry record written after frame `i` of `total` is processed:
`{'status': 'processing', 'progress': (i+1)/total*100}` — note that no
`message` key is written. -/
def frameRecord (i total : Nat) : JobRecord :=
  { status := "processing"
    progress := some ((((i : ℚ) + 1) / (total : ℚ)) * 100)
    message := none
    output_path := none }

/-- The per-frame loop.  Returns the registry writes it performed in order,
and `some msg` if processing a frame raised an exception with description
`msg` (the loop stops at the first raise). -/
def runFrames (env : Env) (method : String) (total : Nat) :
    Nat → List String → List JobRecord × Option String
  | _, [] => ([], none)
  | i, _ :: rest =>
      match process_frame env method i with
      | Except.error msg => ([], some msg)
      | Except.ok _ =>
          let out := runFrames env method total (i + 1) rest
          (frameRecord i total :: out.1, out.2)

/-- `{'status': 'processing', 'progress': 0, 'message': 'Initializing'}`,
the first registry write of `process_video`. -/
def initRecord : JobRecord :=
  { status := "processing", progress := some 0, message := some "Initializing",
    output_path := none }

/-- `{'status': 'error', 'message': msg}` — note that no `progress` key is
written. -/
def errRec (msg : String) : JobRecord :=
  { status := "error", progress := none, message := some msg, output_path := none }

/-- `{'status': 'processing', 'progress': 0, 'message': 'Extracting frames'}`. -/
def extractingRecord : JobRecord :=
  { status := "processing", progress := some 0, message := some "Extracting frames",
    output_path := none }

/-- `{'status': 'processing', 'progress': 0, 'message': 'Removing background'}`. -/
def removingRecord : JobRecord :=
  { status := "processing", progress := some 0, message := some "Removing background",
    output_path := none }

/-- `{'status': 'processing', 'progress': 100, 'message': 'Encoding video'}`. -/
def encodingRecord : JobRecord :=
  { status := "processing", progress := some 100, message := some "Encoding video",
    output_path := none }

/-- The output artifact path for a job. -/
def outputPathOf (vid : String) : String := "temp_videos/output_" ++ vid ++ ".webm"

/-- `{'status': 'completed', 'output_path': path}` — neither `progress` nor
`message` is written. -/
def completedRecord (vid : String) : JobRecord :=
  { status := "completed", progress := none, message := none,
    output_path := some (outputPathOf vid) }

/-- Result of the `try` body of `process_video`, before the `except` and
`finally` clauses run. -/
structure BodyResult where
  /-- `some msg` when the body raised an exception with description `msg` -/
  exn : Option String
  /-- registry writes performed, in order -/
  hist : List JobRecord
  fs : FS
  gpu : Device
  probeRan : Bool
  extractRan : Bool
  framesDone : Nat
  encodeRan : Bool
  /-- was the local variable `frames_dir` assigned -/
  framesDirDefined : Bool
deriving Repr

/-- Initial filesystem for a freshly admitted job: the input file has been
saved, nothing else exists. -/
def fs0 : FS :=
  { framesDirExists := false, frameFiles := [], outputExists := false,
    inputExists := true }

/-- The `try` body of `process_video(video_path, method, video_id)`,
line by line from the source. -/
def process_video_body (vid method : String) (env : Env) : BodyResult :=
  -- if method == 'inspyrenet': inspyrenet_model.model.cuda()
  let gpu0 := if method = "inspyrenet" then Device.cuda else Device.cpu
  -- processing_status[video_id] = init record
  -- frame-count probe subprocess
  if env.probeExit ≠ 0 then
    -- status 'error' / 'Error counting frames'; return (frames_dir unbound)
    { exn := none, hist := [initRecord, errRec "Error counting frames"],
      fs := fs0, gpu := gpu0, probeRan := true, extractRan := false,
      framesDone := 0, encodeRan := false, framesDirDefined := false }
  else
    -- frame_count = int(stdout.decode().strip())
    match pyInt (pyStrip env.probeOut) with
    | none =>
        -- ValueError from int(); caught by the generic except clause
        { exn := some ("invalid literal for int() with base 10: '"
            ++ (pyStrip env.probeOut) ++ "'"),
          hist := [initRecord], fs := fs0, gpu := gpu0, probeRan := true,
          extractRan := false, framesDone := 0, encodeRan := false,
          framesDirDefined := false }
    | some frameCount =>
        if frameCount > 250 then
          -- status 'error' / 'Video too long (max 250 frames)'; return
          { exn := none,
            hist := [initRecord, errRec "Video too long (max 250 frames)"],
            fs := fs0, gpu := gpu0, probeRan := true, extractRan := false,
            framesDone := 0, encodeRan := false, framesDirDefined := false }
        else
          -- frames_dir assigned; os.makedirs(frames_dir)
          -- status record 'Extracting frames'; ffmpeg extraction subprocess
          let fs1 : FS :=
            { fs0 with framesDirExists := true, frameFiles := env.extractedFrames }
          if env.extractExit ≠ 0 then
            { exn := none,
              hist := [initRecord, extractingRecord, errRec "Error extracting frames"],
              fs := fs1, gpu := gpu0, probeRan := true, extractRan := true,
              framesDone := 0, encodeRan := false, framesDirDefined := true }
          else
            -- status record 'Removing background'
            -- frame_files = sorted(f for f in listdir if f.endswith('.png'))
            let frameFiles := sortStr (env.extractedFrames.filter endsWithPng)
            let total := frameFiles.length
            if total = 0 then
              { exn := none,
                hist := [initRecord, extractingRecord, removingRecord,
                  errRec "No frames were extracted from the video"],
                fs := fs1, gpu := gpu0, probeRan := true, extractRan := true,
                framesDone := 0, encodeRan := false, framesDirDefined := true }
            else
              match runFrames env method total 0 frameFiles with
              | (writes, some msg) =>
                  -- a frame raised; caught by the generic except clause
                  { exn := some msg,
                    hist := [initRecord, extractingRecord, removingRecord] ++ writes,
                    fs := fs1, gpu := gpu0, probeRan := true, extractRan := true,
                    framesDone := writes.length, encodeRan := false,
                    framesDirDefined := true }
              | (writes, none) =>
                  -- status record 'Encoding video'; ffmpeg encode subprocess
                  if env.encodeExit ≠ 0 then
                    { exn := none,
                      hist := [initRecord, extractingRecord, removingRecord]
                        ++ writes ++ [encodingRecord, errRec "Error creating output video"],
                      fs := fs1, gpu := gpu0, probeRan := true, extractRan := true,
                      framesDone := writes.length, encodeRan := true,
                      framesDirDefined := true }
                  else
                    { exn := none,
                      hist := [initRecord, extractingRecord, removingRecord]
                        ++ writes ++ [encodingRecord, completedRecord vid],
                      fs := { fs1 with outputExists := true }, gpu := gpu0,
                      probeRan := true, extractRan := true,
                      framesDone := writes.length, encodeRan := true,
                      framesDirDefined := true }

/-- The Python error message of an `UnboundLocalError` on `frames_dir`. -/
def unboundFramesDirMsg : String :=
  "UnboundLocalError: local variable referenced before assignment"

/-- Observable outcome of one run of `process_video`. -/
structure Result where
  /-- registry writes performed, in order -/
  hist : List JobRecord
  fs : FS
  gpu : Device
  probeRan : Bool
  extractRan : Bool
  framesDone : Nat
  encodeRan : Bool
  /-- `some e`: an exception escaped `process_video` -/
  propagated : Option String
deriving Repr

/-- The current registry record: the last write. -/
def Result.reg (r : Result) : Option JobRecord := r.hist.getLast?

/-- `process_video`, composing the `try` body with the `except` and
`finally` clauses.  The `except` clause writes
`{'status': 'error', 'message': str(e)}` and, for inspyrenet, moves the
model to cpu.  The `finally` clause first deletes every file in
`frames_dir` and removes the directory, then, for inspyrenet, moves the
model to cpu; when the body exited before `frames_dir` was assigned, the
first statement of the `finally` clause raises `UnboundLocalError`, which
nothing catches, so it escapes `process_video` before the cpu() call. -/
def process_video (vid method : String) (env : Env) : Result :=
  let b := process_video_body vid method env
  -- except Exception as e
  let hist1 := match b.exn with
    | some msg => b.hist ++ [errRec msg]
    | none => b.hist
  let gpu1 := match b.exn with
    | some _ => if method = "inspyrenet" then Device.cpu else b.gpu
    | none => b.gpu
  -- finally
  if b.framesDirDefined then
    { hist := hist1
      fs := { b.fs with framesDirExists := false, frameFiles := [] }
      gpu := if method = "inspyrenet" then Device.cpu else gpu1
      probeRan := b.probeRan, extractRan := b.extractRan
      framesDone := b.framesDone, encodeRan := b.encodeRan
      propagated := none }
  else
    { hist := hist1, fs := b.fs, gpu := gpu1
      probeRan := b.probeRan, extractRan := b.extractRan
      framesDone := b.framesDone, encodeRan := b.encodeRan
      propagated := some unboundFramesDirMsg }

/-- Observable outcome of the admission endpoint
`remove_background_video`, at the moment its response is returned. -/
structure Admission where
  /-- the single key of the JSON response body -/
  responseKey : String
  /-- the value under that key -/
  responseVal : String
  /-- the `processing_status` entry for the new id when the response
      returns (the endpoint never writes the registry) -/
  recordAtResponse : Option JobRecord
  /-- the input file was saved under `temp_videos/input_<id>.mp4` -/
  inputSaved : Bool
  /-- `background_tasks.add_task(process_video, ...)` was called -/
  taskScheduled : Bool
  /-- a `BackgroundTasks` task runs only after the response is sent -/
  taskStartedBeforeResponse : Bool
deriving Repr, DecidableEq

/-- `remove_background_video`: save the upload, schedule `process_video`
as a background task, return `{"video_id": video_id}`.  No registry write
happens here. -/
def remove_background_video (video_id : String) : Admission :=
  { responseKey := "video_id", responseVal := video_id
    recordAtResponse := none, inputSaved := true
    taskScheduled := true, taskStartedBeforeResponse := false }

/-- Responses of the status endpoint. -/
inductive StatusResponse where
  /-- `HTTPException(status_code=404, detail=...)` -/
  | http404 (detail : String)
  /-- `FileResponse` streaming the artifact -/
  | fileResp (path : String)
  /-- the registry record returned as the JSON body -/
  | json (r : JobRecord)
  /-- an uncaught exception in the handler -/
  | raised (e : String)
deriving Repr, DecidableEq

/-- `get_status(video_id)`: 404 when the id is unknown; for a completed
job, stream the artifact or 404 when the file is missing; otherwise the
registry record itself is the JSON body. -/
def get_status (rec : Option JobRecord) (fileOnDisk : String → Bool) :
    StatusResponse :=
  match rec with
  | none => StatusResponse.http404 "Video ID not found"
  | some r =>
      if r.status = "completed" then
        match r.output_path with
        | none => StatusResponse.raised "KeyError"
        | some p =>
            if fileOnDisk p then StatusResponse.fileResp p
            else StatusResponse.http404 "Processed video file not found"
      else StatusResponse.json r

/-- An artifact under `temp_videos/` as the janitor inspects it. -/
structure Artifact where
  /-- `os.path.getmtime`, in seconds -/
  mtime : Int
  /-- `os.path.isfile` (else it is a directory) -/
  isFile : Bool
deriving Repr, DecidableEq

/-- One sweep of `cleanup_old_videos` over the enumerated items.  `fsNow`
gives each item's state at the moment the sweep inspects it; `none` means
the item disappeared between enumeration and inspection, in which case
`os.path.getmtime` raises `FileNotFoundError` — nothing catches it, so the
sweep stops there.  Returns the names deleted. -/
def cleanup_sweep (now : Int) (items : List String)
    (fsNow : String → Option Artifact) : Except String (List String) :=
  match items with
  | [] => Except.ok []
  | item :: rest =>
      match fsNow item with
      | none => Except.error ("FileNotFoundError: " ++ item)
      | some a =>
          if now - a.mtime > 600 then
            match cleanup_sweep now rest fsNow with
            | Except.error e => Except.error e
            | Except.ok ds => Except.ok (item :: ds)
          else
            cleanup_sweep now rest fsNow

/-- Does the `while True` loop of `cleanup_old_videos` survive this wake?
An exception escaping the sweep terminates the janitor task. -/
def janitorSurvives (now : Int) (items : List String)
    (fsNow : String → Option Artifact) : Bool :=
  match cleanup_sweep now items fsNow with
  | Except.ok _ => true
  | Except.error _ => false

/-! ### Concrete environments used to evaluate the model -/

/-- The probe subprocess exits non-zero. -/
def envProbeFail : Env :=
  { probeExit := 1, probeOut := "", extractExit := 0, extractedFrames := [],
    frameResult := fun _ => Except.ok (), encodeExit := 0 }

/-- A well-behaved two-frame video: every stage succeeds. -/
def envTwoFrames : Env :=
  { probeExit := 0, probeOut := "2", extractExit := 0,
    extractedFrames := ["frame_00001.png", "frame_00002.png"],
    frameResult := fun _ => Except.ok (), encodeExit := 0 }

/-- The probe exits zero but its output is not parsable as an integer. -/
def envBadProbeOut : Env :=
  { probeExit := 0, probeOut := "abc", extractExit := 0, extractedFrames := [],
    frameResult := fun _ => Except.ok (), encodeExit := 0 }

/-- The probe reports 300 frames, above the 250-frame ceiling. -/
def envTooLong : Env :=
  { probeExit := 0, probeOut := "300", extractExit := 0, extractedFrames := [],
    frameResult := fun _ => Except.ok (), encodeExit := 0 }

/-- A storage predicate under which every path exists. -/
def allFiles : String → Bool := fun _ => true

/-- A storage predicate under which no path exists. -/
def noFiles : String → Bool := fun _ => false

/-- A janitor view in which every enumerated item has vanished. -/
def absentFs : String → Option Artifact := fun _ => none

/-- A janitor view in which `old_dir` is still present (and old) but
`gone.mp4` vanished between enumeration and inspection. -/
def raceFs : String → Option Artifact :=
  fun s => if s = "old_dir" then some { mtime := 0, isFile := false } else none

/-! ### Helper lemmas -/

theorem insertStr_ne_nil (s : String) (l : List String) : insertStr s l ≠ [] := by
  cases l with
  | nil => simp [insertStr]
  | cons t ts => unfold insertStr; split <;> simp

theorem sortStr_eq_nil_iff (l : List String) : sortStr l = [] ↔ l = [] := by
  cases l with
  | nil => simp [sortStr]
  | cons s ss => simp [sortStr, insertStr_ne_nil]

theorem process_frame_unsupported (env : Env) (m : String) (i : Nat)
    (hm : ¬ supportedMethod m) :
    process_frame env m i = Except.error "Invalid method" := by
  unfold supportedMethod at hm
  push_neg at hm
  obtain ⟨h1, h2, h3⟩ := hm
  simp [process_frame, h1, h2, h3]

theorem runFrames_unsupported (env : Env) (m : String) (total i : Nat)
    (f : String) (rest : List String) (hm : ¬ supportedMethod m) :
    runFrames env m total i (f :: rest) = ([], some "Invalid method") := by
  simp [runFrames, process_frame_unsupported env m i hm]


theorem process_video_body_facts (vid m : String) (env : Env) :
    (process_video_body vid m env).fs.inputExists = true ∧
    ((process_video_body vid m env).framesDirDefined = false →
      (process_video_body vid m env).fs = fs0) ∧
    (∃ t, (process_video_body vid m env).hist = initRecord :: t) := by
  by_cases h0 : env.probeExit ≠ 0
  · simp [process_video_body, h0, fs0]
  · rcases hp : pyInt (pyStrip env.probeOut) with _ | fc
    · simp [process_video_body, h0, hp, fs0]
    · by_cases h2 : fc > 250
      · simp [process_video_body, h0, hp, h2, fs0]
      · by_cases h3 : env.extractExit ≠ 0
        · simp [process_video_body, h0, hp, h2, h3, fs0]
        · by_cases h4 : sortStr (env.extractedFrames.filter endsWithPng) = []
          · simp [process_video_body, h0, hp, h2, h3, h4, fs0]
          · rcases hr : runFrames env m
                (sortStr (env.extractedFrames.filter endsWithPng)).length 0
                (sortStr (env.extractedFrames.filter endsWithPng)) with ⟨writes, e⟩
            rcases e with _ | msg
            · by_cases h5 : env.encodeExit ≠ 0
              · simp [process_video_body, h0, hp, h2, h3, h4, hr, h5, fs0]
              · simp [process_video_body, h0, hp, h2, h3, h4, hr, h5, fs0]
            · simp [process_video_body, h0, hp, h2, h3, h4, hr, fs0]

theorem process_video_facts (vid m : String) (env : Env) :
    (process_video vid m env).fs.framesDirExists = false ∧
    (process_video vid m env).fs.frameFiles = [] ∧
    (process_video vid m env).fs.inputExists = true ∧
    (process_video vid m env).fs.outputExists
      = (process_video_body vid m env).fs.outputExists ∧
    (process_video vid m env).hist.head? = some initRecord := by
  obtain ⟨h1, h2, t, h3⟩ := process_video_body_facts vid m env
  cases hd : (process_video_body vid m env).framesDirDefined with
  | false =>
      rcases he : (process_video_body vid m env).exn with _ | msg
        <;> simp [process_video, hd, he, h1, h3, h2 hd, fs0]
  | true =>
      rcases he : (process_video_body vid m env).exn with _ | msg
        <;> simp [process_video, hd, he, h1, h3, fs0]

/-- C1: The claim says any failure at any stage becomes a registry record
with status=error and that no exception ever propagates out of
`process_video`, in particular on the path where the probe fails.
Evaluating the code at a job whose probe exits non-zero: the registry
record does become `status=error / 'Error counting frames'`, but the
`finally` clause then reads the unassigned local `frames_dir` and an
`UnboundLocalError` escapes `process_video` — the code contradicts the
claim exactly where the claim spells it out. -/
theorem C1_exception_escapes_on_probe_failure :
    (process_video "vid1" "u2net" envProbeFail).propagated
      = some unboundFramesDirMsg ∧
    (process_video "vid1" "u2net" envProbeFail).reg
      = some (errRec "Error counting frames") :=
  ⟨rfl, rfl⟩

/-- C2: The claim says the shared accelerator is released (model back on
CPU) on every exit path of an inspyrenet job.  Evaluating the code at an
inspyrenet job whose probe exits non-zero: the `finally` clause raises
`UnboundLocalError` on the unassigned `frames_dir` before reaching its
`model.cpu()` call, so the job terminates with the model still on CUDA. -/
theorem C2_gpu_not_released_on_probe_failure :
    (process_video "vid2" "inspyrenet" envProbeFail).gpu = Device.cuda ∧
    (process_video "vid2" "inspyrenet" envProbeFail).propagated
      = some unboundFramesDirMsg :=
  ⟨rfl, rfl⟩

/-- C3: After `process_video` finishes, for every method and every outcome
of the external stages, the job's frame directory and all files within it
no longer exist, the input video file is untouched, and the output
artifact is exactly as the pipeline body left it: the terminal cleanup
deletes nothing besides the frame directory and its files. -/
theorem C3_frame_dir_gone_after_terminal (vid m : String) (env : Env) :
    (process_video vid m env).fs.framesDirExists = false ∧
    (process_video vid m env).fs.frameFiles = [] ∧
    (process_video vid m env).fs.inputExists = true ∧
    (process_video vid m env).fs.outputExists
      = (process_video_body vid m env).fs.outputExists :=
  ⟨(process_video_facts vid m env).1, (process_video_facts vid m env).2.1,
   (process_video_facts vid m env).2.2.1, (process_video_facts vid m env).2.2.2.1⟩

/-- C4: Whenever the probe succeeds and reports a frame count above 250,
the job goes directly from the initial record to
`status=error / 'Video too long (max 250 frames)'`; extraction and
encoding never run, and no frame directory and no output artifact is
created for the job. -/
theorem C4_frame_count_gate (vid m : String) (env : Env) (fc : Int)
    (h0 : env.probeExit = 0) (h1 : pyInt (pyStrip env.probeOut) = some fc)
    (h2 : fc > 250) :
    (process_video vid m env).reg
      = some (errRec "Video too long (max 250 frames)") ∧
    (process_video vid m env).hist
      = [initRecord, errRec "Video too long (max 250 frames)"] ∧
    (process_video vid m env).extractRan = false ∧
    (process_video vid m env).encodeRan = false ∧
    (process_video vid m env).fs.framesDirExists = false ∧
    (process_video vid m env).fs.frameFiles = [] ∧
    (process_video vid m env).fs.outputExists = false := by
  have h0' : ¬ env.probeExit ≠ 0 := by simp [h0]
  simp [process_video, process_video_body, h0', h1, h2, Result.reg, fs0]

/-- Witness for C4 at a concrete probe output of 300 frames. -/
theorem C4_frame_count_gate_witness :
    (process_video "vid4" "u2net" envTooLong).reg
      = some (errRec "Video too long (max 250 frames)") ∧
    (process_video "vid4" "u2net" envTooLong).hist
      = [initRecord, errRec "Video too long (max 250 frames)"] ∧
    (process_video "vid4" "u2net" envTooLong).extractRan = false ∧
    (process_video "vid4" "u2net" envTooLong).encodeRan = false ∧
    (process_video "vid4" "u2net" envTooLong).fs.framesDirExists = false ∧
    (process_video "vid4" "u2net" envTooLong).fs.frameFiles = [] ∧
    (process_video "vid4" "u2net" envTooLong).fs.outputExists = false :=
  C4_frame_count_gate "vid4" "u2net" envTooLong 300 rfl (by decide) (by decide)

/-- C5: Counterexample to the claim that an unparsable probe output gives
message exactly "Error counting frames": with probe exit code 0 and
output "abc", the job's record carries the ValueError description
instead. -/
theorem C5_counterexample :
    envBadProbeOut.probeExit = 0 ∧
    pyInt (pyStrip envBadProbeOut.probeOut) = none ∧
    (process_video "vid5" "u2net" envBadProbeOut).reg
      = some (errRec "invalid literal for int() with base 10: 'abc'") ∧
    (process_video "vid5" "u2net" envBadProbeOut).reg
      ≠ some (errRec "Error counting frames") := by
  refine ⟨rfl, by decide, rfl, by decide⟩

/-- C5 (amended): a probe that exits non-zero gives
`status=error / 'Error counting frames'`; a probe whose output is not
parsable as an integer is caught by the generic exception handler and
gives status=error with the parse failure's own description as message. -/
theorem C5_probe_failure_messages (vid m : String) (env : Env) :
    (env.probeExit ≠ 0 →
      (process_video vid m env).reg = some (errRec "Error counting frames")) ∧
    (env.probeExit = 0 → pyInt (pyStrip env.probeOut) = none →
      (process_video vid m env).reg = some (errRec
        ("invalid literal for int() with base 10: '"
          ++ pyStrip env.probeOut ++ "'"))) := by
  constructor
  · intro h
    simp [process_video, process_video_body, h, Result.reg]
  · intro h0 h1
    have h0' : ¬ env.probeExit ≠ 0 := by simp [h0]
    simp [process_video, process_video_body, h0', h1, Result.reg]

/-- Witness for C5 (amended) at concrete probe outcomes. -/
theorem C5_probe_failure_messages_witness :
    (process_video "vid5a" "u2net" envProbeFail).reg
      = some (errRec "Error counting frames") ∧
    (process_video "vid5b" "u2net" envBadProbeOut).reg
      = some (errRec ("invalid literal for int() with base 10: '"
          ++ pyStrip envBadProbeOut.probeOut ++ "'")) :=
  ⟨(C5_probe_failure_messages "vid5a" "u2net" envProbeFail).1 (by decide),
   (C5_probe_failure_messages "vid5b" "u2net" envBadProbeOut).2 rfl (by decide)⟩

/-- C6: Counterexample to the claim that an unsupported method is rejected
before any stage runs or any job state is mutated: with method "bogus"
the probe and the extraction both run and three registry records are
written before the rejection record appears. -/
theorem C6_counterexample :
    ¬ supportedMethod "bogus" ∧
    (process_video "vid6" "bogus" envTwoFrames).probeRan = true ∧
    (process_video "vid6" "bogus" envTwoFrames).extractRan = true ∧
    (process_video "vid6" "bogus" envTwoFrames).hist
      = [initRecord, extractingRecord, removingRecord, errRec "Invalid method"] := by
  refine ⟨by decide, rfl, rfl, rfl⟩

/-- C6 (amended): an unsupported method is rejected only when the first
frame is transformed: the probe and the extraction stages run and job
state is mutated first, and the job then ends in
`status=error / 'Invalid method'`. -/
theorem C6_unsupported_method_rejected_late (vid m : String) (env : Env)
    (fc : Int) (hm : ¬ supportedMethod m)
    (h0 : env.probeExit = 0) (h1 : pyInt (pyStrip env.probeOut) = some fc)
    (h2 : ¬ fc > 250) (h3 : env.extractExit = 0)
    (h4 : env.extractedFrames.filter endsWithPng ≠ []) :
    (process_video vid m env).probeRan = true ∧
    (process_video vid m env).extractRan = true ∧
    (process_video vid m env).hist
      = [initRecord, extractingRecord, removingRecord, errRec "Invalid method"] ∧
    (process_video vid m env).reg = some (errRec "Invalid method") := by
  have h0' : ¬ env.probeExit ≠ 0 := by simp [h0]
  have h3' : ¬ env.extractExit ≠ 0 := by simp [h3]
  have hne : sortStr (env.extractedFrames.filter endsWithPng) ≠ [] := by
    rw [Ne, sortStr_eq_nil_iff]; exact h4
  obtain ⟨f, rest, hfr⟩ := List.exists_cons_of_ne_nil hne
  simp [process_video, process_video_body, h0', h1, h2, h3', hfr,
    runFrames_unsupported _ _ _ _ _ _ hm, Result.reg]

/-- Witness for C6 (amended) at a concrete two-frame video. -/
theorem C6_unsupported_method_witness :
    (process_video "vid6a" "bogus" envTwoFrames).probeRan = true ∧
    (process_video "vid6a" "bogus" envTwoFrames).extractRan = true ∧
    (process_video "vid6a" "bogus" envTwoFrames).hist
      = [initRecord, extractingRecord, removingRecord, errRec "Invalid method"] ∧
    (process_video "vid6a" "bogus" envTwoFrames).reg
      = some (errRec "Invalid method") :=
  C6_unsupported_method_rejected_late "vid6a" "bogus" envTwoFrames 2
    (by decide) rfl (by decide) (by decide) rfl (by decide)

/-- C7: Counterexample to the claim that admission itself creates the
job's registry record: right after the admission response returns, the
registry has no record for the new id, and a status query for that
admitted id returns the not-found response. -/
theorem C7_counterexample :
    (remove_background_video "a1b2").recordAtResponse = none ∧
    get_status (remove_background_video "a1b2").recordAtResponse allFiles
      = StatusResponse.http404 "Video ID not found" := by
  refine ⟨rfl, rfl⟩

/-- C7 (amended): admission saves the input and schedules the orchestrator
without creating a registry record, so a status query in the window
between the admission response and the orchestrator's first write returns
not-found; the record is first created by the orchestrator itself, whose
first registry write is the Initializing record. -/
theorem C7_record_created_by_orchestrator (id vid m : String) (env : Env) :
    (remove_background_video id).recordAtResponse = none ∧
    (remove_background_video id).taskScheduled = true ∧
    (remove_background_video id).taskStartedBeforeResponse = false ∧
    get_status (remove_background_video id).recordAtResponse allFiles
      = StatusResponse.http404 "Video ID not found" ∧
    (process_video vid m env).hist.head? = some initRecord :=
  ⟨rfl, rfl, rfl, rfl, (process_video_facts vid m env).2.2.2.2⟩

/-- C8: Counterexample to the claim that the janitor treats an artifact
that disappeared between enumeration and inspection as success: on such
an item `os.path.getmtime` raises FileNotFoundError, nothing catches it,
and the sweep loop does not survive the wake. -/
theorem C8_counterexample :
    cleanup_sweep 0 ["input_a.mp4"] absentFs
      = Except.error "FileNotFoundError: input_a.mp4" ∧
    janitorSurvives 0 ["input_a.mp4"] absentFs = false := by
  refine ⟨rfl, rfl⟩

/-- C8 (amended): whenever any enumerated artifact is absent at inspection
time, the sweep raises and the janitor's forever-loop terminates — the
absence is treated as an error, not success. -/
theorem C8_sweep_dies_on_absent_item (now : Int) (items : List String)
    (fsNow : String → Option Artifact)
    (h : ∃ x ∈ items, fsNow x = none) :
    janitorSurvives now items fsNow = false := by
  revert h
  induction items with
  | nil => intro h; simp at h
  | cons a rest ih =>
      intro h
      obtain ⟨x, hx, hnone⟩ := h
      rcases List.mem_cons.mp hx with rfl | hxr
      · simp [janitorSurvives, cleanup_sweep, hnone]
      · rcases ha : fsNow a with _ | art
        · simp [janitorSurvives, cleanup_sweep, ha]
        · have hrest : janitorSurvives now rest fsNow = false := ih ⟨x, hxr, hnone⟩
          unfold janitorSurvives at hrest ⊢
          rcases hsw : cleanup_sweep now rest fsNow with e | ds
          · unfold cleanup_sweep
            rw [ha, hsw]
            by_cases hc : now - art.mtime > 600 <;> simp [hc]
          · rw [hsw] at hrest
            simp at hrest

/-- Witness for C8 (amended): one surviving old item, one vanished item. -/
theorem C8_sweep_dies_witness :
    janitorSurvives 700 ["old_dir", "gone.mp4"] raceFs = false :=
  C8_sweep_dies_on_absent_item 700 ["old_dir", "gone.mp4"] raceFs
    ⟨"gone.mp4", by decide, rfl⟩

/-- C9: Counterexample to the claim that a status query on a known,
not-completed job always answers with all three of status, progress and
message: the record of a job in the error state carries no progress key,
and the record stored between per-frame progress updates carries no
message key; the endpoint returns the stored record verbatim. -/
theorem C9_counterexample :
    get_status (process_video "vid9" "u2net" envProbeFail).reg allFiles
      = StatusResponse.json (errRec "Error counting frames") ∧
    (errRec "Error counting frames").progress = none ∧
    (process_video "vid9" "u2net" envTwoFrames).hist.get? 3
      = some (frameRecord 0 2) ∧
    (frameRecord 0 2).message = none ∧
    get_status (some (frameRecord 0 2)) allFiles
      = StatusResponse.json (frameRecord 0 2) := by
  refine ⟨rfl, rfl, rfl, rfl, rfl⟩

/-- C9 (amended): for a known job that is not completed the response is
the stored registry record verbatim — status is always present, but
error records carry no progress and per-frame progress records carry no
message. -/
theorem C9_status_returns_stored_record (r : JobRecord) (f : String → Bool)
    (h : r.status ≠ "completed") :
    get_status (some r) f = StatusResponse.json r ∧
    (∀ msg, (errRec msg).progress = none) ∧
    (∀ i total, (frameRecord i total).message = none) := by
  refine ⟨by simp [get_status, h], fun _ => rfl, fun _ _ => rfl⟩

/-- Witness for C9 (amended) at the error record of a failed probe. -/
theorem C9_status_witness :
    get_status (some (errRec "Error counting frames")) allFiles
      = StatusResponse.json (errRec "Error counting frames") :=
  (C9_status_returns_stored_record (errRec "Error counting frames") allFiles
    (by decide)).1

/-- C10: Counterexample to the claim that the admission response's key is
"job_id": the endpoint returns `{"video_id": <id>}`. -/
theorem C10_counterexample :
    (remove_background_video "a1b2c3").responseKey = "video_id" ∧
    (remove_background_video "a1b2c3").responseKey ≠ "job_id" := by
  refine ⟨rfl, by decide⟩

/-- C10 (amended): for every admission the successful response body is the
JSON object `{"video_id": <the job's string id>}`, returned with the
processing task merely scheduled, never started before the response. -/
theorem C10_response_is_video_id_key (id : String) :
    (remove_background_video id).responseKey = "video_id" ∧
    (remove_background_video id).responseVal = id ∧
    (remove_background_video id).taskScheduled = true ∧
    (remove_background_video id).taskStartedBeforeResponse = false := by
  refine ⟨rfl, rfl, rfl, rfl⟩
